import Mathlib

/-!
Shallow embedding of `src/lambda/list_s3_contents.py`: a serverless handler
that lists the objects of a storage bucket and wraps the listing in an HTTP
response envelope.  Python dictionaries that carry string values are embedded
as association lists with first-match lookup; the storage backend call
`s3_client.list_objects_v2` is a parameter of the handler, so one invocation
is a pure function of the configured bucket name, the event, the backend's
outcome and the clock reading.  The Python name `prefix` is a Lean keyword and
is rendered `pfx` throughout.
-/

namespace ListS3

/-- A Python `dict` with string keys and string values, embedded as an
association list whose keys are unique in every use below; lookup takes the
first match. -/
abbrev Dict := List (String × String)

/-- `d.get(k)` on a Python dict. -/
def dget : Dict → String → Option String
  | [], _ => none
  | kv :: rest, k => if kv.1 = k then some kv.2 else dget rest k

/-- `d.update(e)` on Python dicts: keys of `d` keep their position but take
`e`'s value when `e` binds them; keys of `e` that `d` lacks are appended. -/
def dictUpdate (d e : Dict) : Dict :=
  d.map (fun kv =>
    match dget e kv.1 with
    | some v => (kv.1, v)
    | none => kv)
  ++ e.filter (fun kv => (dget d kv.1).isNone)

/-- `str.strip()` restricted to its list of characters. -/
def pyStrip (s : String) : List Char :=
  ((s.toList.dropWhile Char.isWhitespace).reverse.dropWhile Char.isWhitespace).reverse

/-- The value of a nonempty all-digit run, `none` otherwise. -/
def parseDigits (cs : List Char) : Option Nat :=
  if cs.isEmpty then none
  else if cs.all Char.isDigit then
    some (cs.foldl (fun a c => a * 10 + (c.toNat - 48)) 0)
  else none

/-- Python `int(s)` on a string: surrounding whitespace stripped, an optional
sign, then a nonempty digit run; `none` models the `ValueError` raised on any
other input. -/
def pyInt (s : String) : Option Int :=
  match pyStrip s with
  | [] => none
  | c :: rest =>
    if c = '-' then (parseDigits rest).map (fun n => -(n : Int))
    else if c = '+' then (parseDigits rest).map (fun n => (n : Int))
    else (parseDigits (c :: rest)).map (fun n => (n : Int))

/-- The `Owner` sub-record of a raw listing entry; `boto3` may omit either
field, which `.get` turns into `None`. -/
structure RawOwner where
  id : Option String
  display_name : Option String
deriving Repr, DecidableEq

/-- One raw entry of the backend page (`response['Contents'][i]`): `Key`,
`Size`, `LastModified` (already rendered by `isoformat()`), `ETag`, optional
`StorageClass`, optional `Owner`. -/
structure RawObject where
  key : String
  size : Nat
  last_modified : String
  etag : String
  storage_class : Option String
  owner : Option RawOwner
deriving Repr, DecidableEq

/-- The raw page returned by `s3_client.list_objects_v2`: each `Option` field
models a key the backend may leave out of the response dict.  A
`CommonPrefixes` entry is modelled by the string under its only used key. -/
structure RawPage where
  contents : Option (List RawObject)
  is_truncated : Option Bool
  next_continuation_token : Option String
  common_prefixes : Option (List String)
deriving Repr, DecidableEq

/-- The per-object record built by the loop of `list_bucket_objects`. -/
structure ObjectInfo where
  key : String
  size : Nat
  last_modified : String
  etag : String
  storage_class : String
  owner : Option RawOwner
deriving Repr, DecidableEq

/-- The result dict of `list_bucket_objects`.  `next_continuation_token` is
`some v` when the key is present with value `v` (itself optional, from
`response.get('NextContinuationToken')`), `none` when the key is absent;
likewise `common_prefixes`. -/
structure ListingResult where
  bucket_name : String
  pfx : String
  object_count : Nat
  total_size_bytes : Nat
  total_size_mb : ℚ
  is_truncated : Bool
  objects : List ObjectInfo
  timestamp : String
  next_continuation_token : Option (Option String)
  common_prefixes : Option (List String)
deriving Repr, DecidableEq

/-- Round to the nearest integer, ties to the even integer: the rounding of
Python's `round` on the exact value of its argument. -/
def roundHalfEven (q : ℚ) : ℤ :=
  if q - ⌊q⌋ < 1 / 2 then ⌊q⌋
  else if 1 / 2 < q - ⌊q⌋ then ⌊q⌋ + 1
  else if ⌊q⌋ % 2 = 0 then ⌊q⌋ else ⌊q⌋ + 1

/-- Python `round(q, 2)`.  `total_size / 1048576` is a dyadic rational, exact
in the source's binary floating point whenever `total_size < 2^53`, so the
rational model coincides with the source there. -/
def pyRound2 (q : ℚ) : ℚ := (roundHalfEven (q * 100) : ℚ) / 100

/-- `s.strip('"')`: every leading and trailing double-quote character
removed. -/
def stripQuoteChars (s : String) : String :=
  ⟨((s.toList.dropWhile (fun c => c = '"')).reverse.dropWhile
      (fun c => c = '"')).reverse⟩

/-- The body of the loop of `list_bucket_objects`: one raw entry to one
`object_info` dict. -/
def toObjectInfo (o : RawObject) : ObjectInfo :=
  { key := o.key
    size := o.size
    last_modified := o.last_modified
    etag := stripQuoteChars o.etag
    storage_class := o.storage_class.getD "STANDARD"
    owner := o.owner }

/-- The loop of `list_bucket_objects`: the transformed objects in order,
paired with the running `total_size`. -/
def processContents : List RawObject → List ObjectInfo × Nat
  | [] => ([], 0)
  | o :: rest =>
    let r := processContents rest
    (toObjectInfo o :: r.1, o.size + r.2)

/-- The pure transformation of `list_bucket_objects` on a raw page already
obtained from the backend; `now` is `datetime.utcnow().isoformat()`. -/
def list_bucket_objects (bucket_name pfx : String) (page : RawPage)
    (now : String) : ListingResult :=
  let processed := processContents (page.contents.getD [])
  { bucket_name := bucket_name
    pfx := pfx
    object_count := processed.1.length
    total_size_bytes := processed.2
    total_size_mb := pyRound2 ((processed.2 : ℚ) / (1024 * 1024))
    is_truncated := page.is_truncated.getD false
    objects := processed.1
    timestamp := now ++ "Z"
    next_continuation_token :=
      match page.is_truncated with
      | some true => some page.next_continuation_token
      | _ => none
    common_prefixes := page.common_prefixes }

/-- What the single `s3_client.list_objects_v2` call (through
`list_bucket_objects`) does on one invocation: it returns a page, or raises
one of the exceptions the handler distinguishes.  `valueError` also covers a
`ValueError` re-raised out of `list_bucket_objects`, per its blanket
`except ... raise`. -/
inductive S3Outcome where
  | ok (page : RawPage)
  | clientError (code msg : String)
  | noCredentials
  | valueError (msg : String)
  | otherError (msg : String)
deriving Repr, DecidableEq

/-- The body argument of `create_response`: the listing dict on success, the
`{'error': ..., 'message': ...}` dict on every error path. -/
inductive Body where
  | listing (r : ListingResult)
  | err (error message : String)
deriving Repr, DecidableEq

/-- The API Gateway response object built by `create_response`. -/
structure Response where
  statusCode : Nat
  headers : Dict
  body : Body
deriving Repr, DecidableEq

/-- The `default_headers` dict of `create_response`. -/
def default_headers : Dict :=
  [("Content-Type", "application/json"),
   ("Access-Control-Allow-Origin", "*"),
   ("Access-Control-Allow-Headers",
    "Content-Type,X-Amz-Date,Authorization,X-Api-Key,X-Amz-Security-Token"),
   ("Access-Control-Allow-Methods", "GET,OPTIONS")]

/-- `create_response(status_code, body, headers)`: the optional extra headers
update the defaults when truthy (a `None` or empty dict leaves them as they
are). -/
def create_response (status_code : Nat) (body : Body) (headers : Option Dict) :
    Response :=
  { statusCode := status_code
    headers :=
      match headers with
      | some h => if h.isEmpty then default_headers else dictUpdate default_headers h
      | none => default_headers
    body := body }

/-- The API Gateway event: only `queryStringParameters` matters, and it may be
absent or `null`, both rendered `none`. -/
structure Event where
  queryStringParameters : Option Dict
deriving Repr, DecidableEq

/-- `event.get('queryStringParameters') or {}`. -/
def queryParams (event : Event) : Dict := event.queryStringParameters.getD []

/-- `query_params.get('prefix', '')`. -/
def pfxOf (event : Event) : String := (dget (queryParams event) "prefix").getD ""

/-- `int(query_params.get('max_keys', 100))`: the default `100` is already an
integer, a present value is a string fed to `int`; `none` is the
`ValueError`. -/
def rawMaxKeys (event : Event) : Option Int :=
  match dget (queryParams event) "max_keys" with
  | none => some 100
  | some s => pyInt s

/-- `if max_keys > 1000: max_keys = 1000`. -/
def clampMaxKeys (n : Int) : Int := if n > 1000 then 1000 else n

/-- The text of the `ValueError` raised by `int()` on a non-numeric string. -/
def parseErrorMessage (s : String) : String :=
  "invalid literal for int() with base 10: '" ++ s ++ "'"

/-- `if not bucket_name:` — `BUCKET_NAME` unset or set to the empty string is
falsy. -/
def bucketConfigured : Option String → Bool
  | none => false
  | some s => !s.isEmpty

/-- The response the handler builds from the backend call's outcome: the
`return create_response(200, response)` of the success path together with the
four `except` blocks of `lambda_handler`. -/
def outcomeResponse (o : S3Outcome) (bucket_name pfx now : String) : Response :=
  match o with
  | .ok page =>
    create_response 200 (.listing (list_bucket_objects bucket_name pfx page now)) none
  | .clientError code _msg =>
    if code = "NoSuchBucket" then
      create_response 404
        (.err "Bucket not found" "The specified bucket does not exist") none
    else if code = "AccessDenied" then
      create_response 403
        (.err "Access denied" "Insufficient permissions to access the bucket") none
    else
      create_response 500
        (.err "AWS service error" "An error occurred while accessing AWS services") none
  | .noCredentials =>
    create_response 500
      (.err "Internal server error" "AWS credentials not configured") none
  | .valueError msg =>
    create_response 400 (.err "Invalid request" msg) none
  | .otherError _msg =>
    create_response 500
      (.err "Internal server error" "An unexpected error occurred") none

/-- `lambda_handler(event, context)`, with the ambient pieces as parameters:
`bucket_env` is `os.environ.get('BUCKET_NAME')`, `s3` the backend call, `now`
the clock.  The second component records the arguments
`(bucket_name, prefix, max_keys)` of the `list_bucket_objects` call when one
is made, `none` when the handler returns before reaching the backend. -/
def lambda_handler (bucket_env : Option String) (event : Event)
    (s3 : String → String → Int → S3Outcome) (now : String) :
    Response × Option (String × String × Int) :=
  match bucket_env with
  | none =>
    (create_response 500
      (.err "Internal server error" "Bucket name not configured") none, none)
  | some bucket_name =>
    if bucket_name.isEmpty then
      (create_response 500
        (.err "Internal server error" "Bucket name not configured") none, none)
    else
      match rawMaxKeys event with
      | none =>
        (create_response 400
          (.err "Invalid request"
            (parseErrorMessage ((dget (queryParams event) "max_keys").getD "")))
          none, none)
      | some n =>
        let pfx := pfxOf event
        let max_keys := clampMaxKeys n
        (outcomeResponse (s3 bucket_name pfx max_keys) bucket_name pfx now,
         some (bucket_name, pfx, max_keys))

/-- Lookup through the optional extra-headers argument of `create_response`:
`none` behaves as an empty dict. -/
def extraLookup (headers : Option Dict) (k : String) : Option String :=
  match headers with
  | none => none
  | some h => dget h k

/-! ## Lemmas about dictionary lookup and update -/

lemma dget_append (a b : Dict) (k : String) :
    dget (a ++ b) k = (dget a k).orElse (fun _ => dget b k) := by
  induction a with
  | nil => rfl
  | cons kv rest ih =>
    by_cases h : kv.1 = k <;> simp [dget, h, ih]

lemma dget_map_override (d e : Dict) (k : String) :
    dget (d.map (fun kv =>
      match dget e kv.1 with
      | some v => (kv.1, v)
      | none => kv)) k
      = (dget d k).map (fun v => (dget e k).getD v) := by
  induction d with
  | nil => rfl
  | cons kv rest ih =>
    by_cases h : kv.1 = k
    · subst h
      cases he : dget e kv.1 <;> simp [dget, he]
    · cases he : dget e kv.1 <;> simp [dget, h, he, ih]

lemma dget_filter_isNone (d e : Dict) (k : String) :
    dget d k = none →
    dget (e.filter (fun kv => (dget d kv.1).isNone)) k = dget e k := by
  intro hd
  induction e with
  | nil => rfl
  | cons kv rest ih =>
    by_cases h : kv.1 = k
    · subst h
      simp [List.filter, hd, dget, ih]
    · by_cases hkv : (dget d kv.1).isNone <;> simp [List.filter, hkv, dget, h, ih]

lemma dget_dictUpdate (d e : Dict) (k : String) :
    dget (dictUpdate d e) k = (dget e k).orElse (fun _ => dget d k) := by
  unfold dictUpdate
  rw [dget_append, dget_map_override]
  cases hd : dget d k with
  | none =>
    rw [dget_filter_isNone d e k hd]
    cases dget e k <;> rfl
  | some v =>
    cases he : dget e k <;> simp [he, Option.orElse]

/-! ## Lemmas about the handler's control flow -/

lemma lambda_handler_backend (b : String) (event : Event)
    (s3 : String → String → Int → S3Outcome) (now : String) (n : Int)
    (hbne : b.isEmpty = false) (hn : rawMaxKeys event = some n) :
    lambda_handler (some b) event s3 now =
      (outcomeResponse (s3 b (pfxOf event) (clampMaxKeys n)) b (pfxOf event) now,
       some (b, pfxOf event, clampMaxKeys n)) := by
  simp [lambda_handler, hbne, hn]

lemma handler_no_bucket (bucket_env : Option String) (event : Event)
    (s3 : String → String → Int → S3Outcome) (now : String)
    (hb : bucketConfigured bucket_env = false) :
    lambda_handler bucket_env event s3 now =
      (create_response 500
        (.err "Internal server error" "Bucket name not configured") none, none) := by
  rcases bucket_env with _ | b
  · rfl
  · simp [bucketConfigured] at hb
    simp [lambda_handler, hb]

lemma handler_parse_fail (b : String) (event : Event)
    (s3 : String → String → Int → S3Outcome) (now : String)
    (hbne : b.isEmpty = false) (hn : rawMaxKeys event = none) :
    lambda_handler (some b) event s3 now =
      (create_response 400
        (.err "Invalid request"
          (parseErrorMessage ((dget (queryParams event) "max_keys").getD "")))
        none, none) := by
  simp [lambda_handler, hbne, hn]

lemma outcomeResponse_statusCode (o : S3Outcome) (b p now : String) :
    (outcomeResponse o b p now).statusCode = 200 ∨
    (outcomeResponse o b p now).statusCode = 400 ∨
    (outcomeResponse o b p now).statusCode = 403 ∨
    (outcomeResponse o b p now).statusCode = 404 ∨
    (outcomeResponse o b p now).statusCode = 500 := by
  rcases o with page | ⟨code, msg⟩ | _ | msg | msg
  · simp [outcomeResponse, create_response]
  · by_cases h1 : code = "NoSuchBucket" <;>
    by_cases h2 : code = "AccessDenied" <;>
    simp [outcomeResponse, create_response, h1, h2]
  · simp [outcomeResponse, create_response]
  · simp [outcomeResponse, create_response]
  · simp [outcomeResponse, create_response]

lemma outcomeResponse_err (o : S3Outcome) (b p now : String)
    (h : (outcomeResponse o b p now).statusCode ≠ 200) :
    ∃ e m, (outcomeResponse o b p now).body = Body.err e m := by
  rcases o with page | ⟨code, msg⟩ | _ | msg | msg
  · exact absurd rfl h
  · by_cases h1 : code = "NoSuchBucket" <;>
    by_cases h2 : code = "AccessDenied" <;>
    simp [outcomeResponse, create_response, h1, h2]
  · exact ⟨_, _, rfl⟩
  · exact ⟨_, _, rfl⟩
  · exact ⟨_, _, rfl⟩

lemma handler_taxonomy (bucket_env : Option String) (event : Event)
    (s3 : String → String → Int → S3Outcome) (now : String) :
    ((lambda_handler bucket_env event s3 now).1.statusCode = 200 ∨
      (lambda_handler bucket_env event s3 now).1.statusCode = 400 ∨
      (lambda_handler bucket_env event s3 now).1.statusCode = 403 ∨
      (lambda_handler bucket_env event s3 now).1.statusCode = 404 ∨
      (lambda_handler bucket_env event s3 now).1.statusCode = 500) ∧
    ((lambda_handler bucket_env event s3 now).1.statusCode ≠ 200 →
      ∃ e m, (lambda_handler bucket_env event s3 now).1.body = Body.err e m) ∧
    (∀ b p k, (lambda_handler bucket_env event s3 now).2 = some (b, p, k) →
      (lambda_handler bucket_env event s3 now).1 = outcomeResponse (s3 b p k) b p now) := by
  rcases hbc : bucketConfigured bucket_env with _ | _
  · rw [handler_no_bucket bucket_env event s3 now hbc]
    refine ⟨by simp [create_response], fun _ => ⟨_, _, rfl⟩, fun b p k hk => by simp at hk⟩
  · rcases bucket_env with _ | b
    · simp [bucketConfigured] at hbc
    · have hbne : b.isEmpty = false := by
        simpa [bucketConfigured] using hbc
      rcases hn : rawMaxKeys event with _ | n
      · rw [handler_parse_fail b event s3 now hbne hn]
        refine ⟨by simp [create_response], fun _ => ⟨_, _, rfl⟩, fun b' p k hk => by simp at hk⟩
      · rw [lambda_handler_backend b event s3 now n hbne hn]
        refine ⟨outcomeResponse_statusCode _ _ _ _, outcomeResponse_err _ _ _ _, ?_⟩
        intro b' p k hk
        obtain ⟨h1, h2, h3⟩ : b = b' ∧ pfxOf event = p ∧ clampMaxKeys n = k := by
          simpa using hk
        simp only [h1, h2, h3]

/-! ## The claims -/

/-- C1: the HTTP status code of every handler response follows the error
taxonomy — 200 on a successful backend listing, 400 on an unparseable
max_keys, 403 on a backend AccessDenied client error, 404 on NoSuchBucket,
500 on a missing bucket name, missing credentials, any other backend client
error or any unexpected exception; every status is one of these five, and
every non-200 response body is an error/message pair with the taxonomy's
fixed strings. -/
theorem C1_error_taxonomy (bucket_env : Option String) (event : Event)
    (s3 : String → String → Int → S3Outcome) (now : String) :
    ((lambda_handler bucket_env event s3 now).1.statusCode = 200 ∨
      (lambda_handler bucket_env event s3 now).1.statusCode = 400 ∨
      (lambda_handler bucket_env event s3 now).1.statusCode = 403 ∨
      (lambda_handler bucket_env event s3 now).1.statusCode = 404 ∨
      (lambda_handler bucket_env event s3 now).1.statusCode = 500) ∧
    (bucketConfigured bucket_env = false →
      (lambda_handler bucket_env event s3 now).1.statusCode = 500 ∧
      (lambda_handler bucket_env event s3 now).1.body =
        Body.err "Internal server error" "Bucket name not configured") ∧
    (bucketConfigured bucket_env = true → rawMaxKeys event = none →
      (lambda_handler bucket_env event s3 now).1.statusCode = 400 ∧
      ∃ m, (lambda_handler bucket_env event s3 now).1.body =
        Body.err "Invalid request" m) ∧
    (∀ b p k, (lambda_handler bucket_env event s3 now).2 = some (b, p, k) →
      (lambda_handler bucket_env event s3 now).1 = outcomeResponse (s3 b p k) b p now) ∧
    (∀ page b p nw, outcomeResponse (S3Outcome.ok page) b p nw =
      create_response 200 (Body.listing (list_bucket_objects b p page nw)) none) ∧
    (∀ m b p nw, outcomeResponse (S3Outcome.clientError "NoSuchBucket" m) b p nw =
      create_response 404
        (Body.err "Bucket not found" "The specified bucket does not exist") none) ∧
    (∀ m b p nw, outcomeResponse (S3Outcome.clientError "AccessDenied" m) b p nw =
      create_response 403
        (Body.err "Access denied" "Insufficient permissions to access the bucket") none) ∧
    (∀ c m b p nw, c ≠ "NoSuchBucket" → c ≠ "AccessDenied" →
      outcomeResponse (S3Outcome.clientError c m) b p nw =
      create_response 500
        (Body.err "AWS service error" "An error occurred while accessing AWS services") none) ∧
    (∀ b p nw, outcomeResponse S3Outcome.noCredentials b p nw =
      create_response 500
        (Body.err "Internal server error" "AWS credentials not configured") none) ∧
    (∀ m b p nw, outcomeResponse (S3Outcome.valueError m) b p nw =
      create_response 400 (Body.err "Invalid request" m) none) ∧
    (∀ m b p nw, outcomeResponse (S3Outcome.otherError m) b p nw =
      create_response 500
        (Body.err "Internal server error" "An unexpected error occurred") none) ∧
    ((lambda_handler bucket_env event s3 now).1.statusCode ≠ 200 →
      ∃ e m, (lambda_handler bucket_env event s3 now).1.body = Body.err e m) := by
  obtain ⟨hcodes, herr, hlink⟩ := handler_taxonomy bucket_env event s3 now
  refine ⟨hcodes, ?_, ?_, hlink, fun _ _ _ _ => rfl, fun _ _ _ _ => rfl,
    fun _ _ _ _ => rfl, ?_, fun _ _ _ => rfl, fun _ _ _ _ => rfl,
    fun _ _ _ _ => rfl, herr⟩
  · intro hb
    rw [handler_no_bucket bucket_env event s3 now hb]
    exact ⟨rfl, rfl⟩
  · intro hb hn
    rcases bucket_env with _ | b
    · simp [bucketConfigured] at hb
    · have hbne : b.isEmpty = false := by
        simpa [bucketConfigured] using hb
      rw [handler_parse_fail b event s3 now hbne hn]
      exact ⟨rfl, _, rfl⟩
  · intro c m b p nw h1 h2
    simp [outcomeResponse, h1, h2]

/-- C1, applied: with no bucket configured the handler answers 500 with the
fixed body. -/
theorem C1_error_taxonomy_witness :
    (lambda_handler none ⟨none⟩ (fun _ _ _ => S3Outcome.otherError "x") "t").1.statusCode
        = 500 ∧
    (lambda_handler none ⟨none⟩ (fun _ _ _ => S3Outcome.otherError "x") "t").1.body =
      Body.err "Internal server error" "Bucket name not configured" :=
  (C1_error_taxonomy none ⟨none⟩ (fun _ _ _ => S3Outcome.otherError "x") "t").2.1 rfl

/-- C2: a parsed max_keys of at most 1000 reaches the backend unchanged; a
larger one is clamped to exactly 1000, and the request still succeeds when the
backend does. -/
theorem C2_clamp (bucket_env : Option String) (b : String) (event : Event)
    (s3 : String → String → Int → S3Outcome) (now : String) (n : Int)
    (hb : bucket_env = some b) (hbne : b.isEmpty = false)
    (hn : rawMaxKeys event = some n) :
    (n ≤ 1000 →
      (lambda_handler bucket_env event s3 now).2 = some (b, pfxOf event, n)) ∧
    (1000 < n →
      (lambda_handler bucket_env event s3 now).2 = some (b, pfxOf event, 1000) ∧
      ∀ page, s3 b (pfxOf event) 1000 = S3Outcome.ok page →
        (lambda_handler bucket_env event s3 now).1.statusCode = 200) := by
  subst hb
  rw [lambda_handler_backend b event s3 now n hbne hn]
  constructor
  · intro hle
    have : clampMaxKeys n = n := by
      simp [clampMaxKeys, not_lt.mpr hle]
    rw [this]
  · intro hlt
    have hc : clampMaxKeys n = 1000 := by
      simp [clampMaxKeys, hlt]
    rw [hc]
    exact ⟨rfl, fun page hok => by rw [hok]; rfl⟩

/-- C2, applied: max_keys "2000" reaches the backend as 1000 and the request
succeeds. -/
theorem C2_clamp_witness :
    (lambda_handler (some "b") ⟨some [("max_keys", "2000")]⟩
        (fun _ _ _ => S3Outcome.ok ⟨none, none, none, none⟩) "t").2
      = some ("b", "", 1000) ∧
    (lambda_handler (some "b") ⟨some [("max_keys", "2000")]⟩
        (fun _ _ _ => S3Outcome.ok ⟨none, none, none, none⟩) "t").1.statusCode = 200 := by
  have h := (C2_clamp (some "b") "b" ⟨some [("max_keys", "2000")]⟩
    (fun _ _ _ => S3Outcome.ok ⟨none, none, none, none⟩) "t" 2000
    rfl rfl (by decide)).2 (by decide)
  exact ⟨h.1, h.2 ⟨none, none, none, none⟩ rfl⟩

/-- C3 as frozen is false: the request max_keys = "0" reaches the backend with
the normalized value 0, which is not in [1, 1000]. -/
theorem C3_counterexample :
    ¬ (∀ (bucket_env : Option String) (event : Event)
        (s3 : String → String → Int → S3Outcome) (now : String)
        (b p : String) (k : Int),
        (lambda_handler bucket_env event s3 now).2 = some (b, p, k) →
        1 ≤ k ∧ k ≤ 1000) := by
  intro h
  have := h (some "b") ⟨some [("max_keys", "0")]⟩
    (fun _ _ _ => S3Outcome.ok ⟨none, none, none, none⟩) "t" "b" "" 0 (by decide)
  exact absurd this.1 (by decide)

/-- C3 amended: after normalization every max_keys value reaching the backend
is at most 1000 — no lower bound is enforced, so zero and negative values pass
through — and non-numeric max_keys input is rejected with status 400 before
the backend is called. -/
theorem C3_upper_bound_only (bucket_env : Option String) (event : Event)
    (s3 : String → String → Int → S3Outcome) (now : String) :
    (∀ b p k, (lambda_handler bucket_env event s3 now).2 = some (b, p, k) →
      k ≤ 1000) ∧
    (bucketConfigured bucket_env = true → rawMaxKeys event = none →
      (lambda_handler bucket_env event s3 now).1.statusCode = 400 ∧
      (lambda_handler bucket_env event s3 now).2 = none) := by
  constructor
  · intro b p k hk
    rcases hbc : bucketConfigured bucket_env with _ | _
    · rw [handler_no_bucket bucket_env event s3 now hbc] at hk
      simp at hk
    · rcases bucket_env with _ | b'
      · simp [bucketConfigured] at hbc
      · have hbne : b'.isEmpty = false := by
          simpa [bucketConfigured] using hbc
        rcases hn : rawMaxKeys event with _ | n
        · rw [handler_parse_fail b' event s3 now hbne hn] at hk
          simp at hk
        · rw [lambda_handler_backend b' event s3 now n hbne hn] at hk
          have : clampMaxKeys n = k := (by simpa using hk :
            b' = b ∧ pfxOf event = p ∧ clampMaxKeys n = k).2.2
          rw [← this]
          simp [clampMaxKeys]
          omega
  · intro hb hn
    rcases bucket_env with _ | b'
    · simp [bucketConfigured] at hb
    · have hbne : b'.isEmpty = false := by
        simpa [bucketConfigured] using hb
      rw [handler_parse_fail b' event s3 now hbne hn]
      exact ⟨rfl, rfl⟩

/-- C3 amended, applied: max_keys "5000" reaches the backend clamped to 1000,
and max_keys "abc" is answered 400 with no backend call. -/
theorem C3_upper_bound_only_witness :
    ((lambda_handler (some "b") ⟨some [("max_keys", "5000")]⟩
        (fun _ _ _ => S3Outcome.ok ⟨none, none, none, none⟩) "t").2
      = some ("b", "", 1000) → (1000 : Int) ≤ 1000) ∧
    ((lambda_handler (some "b") ⟨some [("max_keys", "abc")]⟩
        (fun _ _ _ => S3Outcome.ok ⟨none, none, none, none⟩) "t").1.statusCode = 400 ∧
     (lambda_handler (some "b") ⟨some [("max_keys", "abc")]⟩
        (fun _ _ _ => S3Outcome.ok ⟨none, none, none, none⟩) "t").2 = none) :=
  ⟨fun hk => (C3_upper_bound_only (some "b") ⟨some [("max_keys", "5000")]⟩
      (fun _ _ _ => S3Outcome.ok ⟨none, none, none, none⟩) "t").1 "b" "" 1000 hk,
   (C3_upper_bound_only (some "b") ⟨some [("max_keys", "abc")]⟩
      (fun _ _ _ => S3Outcome.ok ⟨none, none, none, none⟩) "t").2 rfl (by decide)⟩

/-- C4: in every listing result, object_count is the length of the objects
sequence and total_size_bytes is the sum of the size of every object in that
sequence, so recomputing the aggregates from the returned objects is the
identity. -/
theorem C4_aggregates (bucket_name pfx : String) (page : RawPage) (now : String) :
    let r := list_bucket_objects bucket_name pfx page now
    r.object_count = r.objects.length ∧
    r.total_size_bytes = (r.objects.map ObjectInfo.size).sum := by
  refine ⟨rfl, ?_⟩
  show (processContents (page.contents.getD [])).2
    = ((processContents (page.contents.getD [])).1.map ObjectInfo.size).sum
  induction page.contents.getD [] with
  | nil => rfl
  | cons o rest ih => simp [processContents, toObjectInfo, ih]

/-- C5: the next_continuation_token key is present in the listing result if
and only if its is_truncated field is true. -/
theorem C5_token_iff_truncated (bucket_name pfx : String) (page : RawPage) (now : String) :
    let r := list_bucket_objects bucket_name pfx page now
    (r.next_continuation_token ≠ none) ↔ r.is_truncated = true := by
  rcases page with ⟨c, t, tok, cp⟩
  rcases t with _ | _ | _ <;> simp [list_bucket_objects]

/-- C6: with queryStringParameters absent or null the handler uses the
defaults prefix = "" and max_keys = 100, and passes exactly those values to
the backend. -/
theorem C6_defaults (bucket_env : Option String) (b : String) (event : Event)
    (s3 : String → String → Int → S3Outcome) (now : String)
    (hb : bucket_env = some b) (hbne : b.isEmpty = false)
    (hq : event.queryStringParameters = none) :
    pfxOf event = "" ∧ rawMaxKeys event = some 100 ∧
    (lambda_handler bucket_env event s3 now).2 = some (b, "", 100) := by
  subst hb
  have hp : pfxOf event = "" := by simp [pfxOf, queryParams, hq, dget]
  have hm : rawMaxKeys event = some 100 := by simp [rawMaxKeys, queryParams, hq, dget]
  refine ⟨hp, hm, ?_⟩
  rw [lambda_handler_backend b event s3 now 100 hbne hm, hp]
  rfl

/-- C6, applied at a concrete event with null query parameters. -/
theorem C6_defaults_witness :
    (lambda_handler (some "b") ⟨none⟩
        (fun _ _ _ => S3Outcome.ok ⟨none, none, none, none⟩) "t").2
      = some ("b", "", 100) :=
  (C6_defaults (some "b") "b" ⟨none⟩
    (fun _ _ _ => S3Outcome.ok ⟨none, none, none, none⟩) "t" rfl rfl rfl).2.2

/-- C7: every response built by create_response carries the four default
headers with their fixed values, and lookup in the final header dict is the
extra headers first, the defaults second — so a supplied extra header wins on
key collision and every non-colliding default is unchanged. -/
theorem C7_response_headers (status_code : Nat) (body : Body) (extra : Option Dict) :
    let h := (create_response status_code body extra).headers
    dget default_headers "Content-Type" = some "application/json" ∧
    dget default_headers "Access-Control-Allow-Origin" = some "*" ∧
    dget default_headers "Access-Control-Allow-Headers"
      = some "Content-Type,X-Amz-Date,Authorization,X-Api-Key,X-Amz-Security-Token" ∧
    dget default_headers "Access-Control-Allow-Methods" = some "GET,OPTIONS" ∧
    (∀ k, dget h k = (extraLookup extra k).orElse (fun _ => dget default_headers k)) := by
  refine ⟨by decide, by decide, by decide, by decide, ?_⟩
  intro k
  match extra with
  | none => rfl
  | some e =>
    by_cases he : e.isEmpty
    · have : e = [] := by
        cases e with
        | nil => rfl
        | cons kv rest => simp [List.isEmpty] at he
      subst this
      simp [create_response, extraLookup, dget, Option.orElse]
    · simp only [create_response, he, if_neg, extraLookup]
      rw [if_neg (by simp [he])]
      exact dget_dictUpdate default_headers e k

/-- C8: the total_size_mb field of every listing result equals
total_size_bytes / 1048576 rounded to two decimal places. -/
theorem C8_total_size_mb (bucket_name pfx : String) (page : RawPage) (now : String) :
    let r := list_bucket_objects bucket_name pfx page now
    r.total_size_mb = pyRound2 ((r.total_size_bytes : ℚ) / 1048576) := by
  show pyRound2 ((((processContents (page.contents.getD [])).2 : ℕ) : ℚ) / (1024 * 1024))
    = pyRound2 ((((processContents (page.contents.getD [])).2 : ℕ) : ℚ) / 1048576)
  norm_num

/-- C9: a parsed max_keys of zero or below is passed to the backend unchanged
— the handler performs no lower-bound validation and does not reject such a
request with 400. -/
theorem C9_no_lower_bound (bucket_env : Option String) (b : String)
    (event : Event) (s3 : String → String → Int → S3Outcome) (now : String)
    (n : Int) (hb : bucket_env = some b) (hbne : b.isEmpty = false)
    (hn : rawMaxKeys event = some n) (hle : n ≤ 0) :
    (lambda_handler bucket_env event s3 now).2 = some (b, pfxOf event, n) ∧
    (∀ page, s3 b (pfxOf event) n = S3Outcome.ok page →
      (lambda_handler bucket_env event s3 now).1.statusCode = 200) := by
  subst hb
  rw [lambda_handler_backend b event s3 now n hbne hn]
  have hc : clampMaxKeys n = n := by
    simp [clampMaxKeys]
    omega
  rw [hc]
  exact ⟨rfl, fun page hok => by rw [hok]; rfl⟩

/-- C9, applied: max_keys "0" reaches the backend as 0 with a 200 answer. -/
theorem C9_no_lower_bound_witness :
    (lambda_handler (some "b") ⟨some [("max_keys", "0")]⟩
        (fun _ _ _ => S3Outcome.ok ⟨none, none, none, none⟩) "t").2
      = some ("b", "", 0) ∧
    (lambda_handler (some "b") ⟨some [("max_keys", "0")]⟩
        (fun _ _ _ => S3Outcome.ok ⟨none, none, none, none⟩) "t").1.statusCode = 200 := by
  have h := C9_no_lower_bound (some "b") "b" ⟨some [("max_keys", "0")]⟩
    (fun _ _ _ => S3Outcome.ok ⟨none, none, none, none⟩) "t" 0
    rfl rfl (by decide) (by decide)
  exact ⟨h.1, h.2 ⟨none, none, none, none⟩ rfl⟩

/-- C10: a ValueError surfacing from the backend call after max_keys parsed is
answered 400 with error "Invalid request" and the exception's text — the 400
path is not restricted to max_keys parse failures. -/
theorem C10_valueError_maps_400 (bucket_env : Option String) (b : String)
    (event : Event) (s3 : String → String → Int → S3Outcome) (now : String)
    (n : Int) (msg : String)
    (hb : bucket_env = some b) (hbne : b.isEmpty = false)
    (hn : rawMaxKeys event = some n)
    (hs : s3 b (pfxOf event) (clampMaxKeys n) = S3Outcome.valueError msg) :
    (lambda_handler bucket_env event s3 now).1.statusCode = 400 ∧
    (lambda_handler bucket_env event s3 now).1.body =
      Body.err "Invalid request" msg := by
  subst hb
  rw [lambda_handler_backend b event s3 now n hbne hn, hs]
  exact ⟨rfl, rfl⟩

/-- C10, applied: a backend ValueError with text "boom" after max_keys "5"
parsed gives 400 / Invalid request / boom. -/
theorem C10_valueError_maps_400_witness :
    (lambda_handler (some "b") ⟨some [("max_keys", "5")]⟩
        (fun _ _ _ => S3Outcome.valueError "boom") "t").1.statusCode = 400 ∧
    (lambda_handler (some "b") ⟨some [("max_keys", "5")]⟩
        (fun _ _ _ => S3Outcome.valueError "boom") "t").1.body =
      Body.err "Invalid request" "boom" :=
  C10_valueError_maps_400 (some "b") "b" ⟨some [("max_keys", "5")]⟩
    (fun _ _ _ => S3Outcome.valueError "boom") "t" 5 "boom"
    rfl rfl (by decide) rfl

end ListS3
